import Mathlib

set_option autoImplicit false
set_option maxRecDepth 4000
set_option linter.unusedVariables false

namespace ELearn

/-- A quiz question from the static bank `QUESTIONS` in
`backend/model_utils.py`: question text, option texts, and per-option point
values. -/
structure Question where
  question : String
  options : List String
  scores : List Int
  deriving Repr, DecidableEq

/-- The static question bank `QUESTIONS` of `backend/model_utils.py`
(transcribed verbatim; apostrophes written as the escape `\x27`). -/
def QUESTIONS : List Question := [
  ⟨"Which of the following best describes a \x27for\x27 loop?",
   ["A conditional statement", "A way to store multiple values", "A control flow statement for iterating", "A function that calls itself"],
   [2, 3, 10, 1]⟩,
  ⟨"How would you efficiently create a new list of only even numbers from an existing list?",
   ["Series of \x27if-else\x27 statements", "A loop that checks each number", "A function for every possible number", "Store numbers in separate variables"],
   [3, 10, 1, 2]⟩,
  ⟨"What is the primary purpose of a function in programming?",
   ["To stop the program", "To store data", "To group reusable code", "To create comments"],
   [1, 3, 10, 2]⟩,
  ⟨"If a coin is flipped twice, what is the probability of getting two heads?",
   ["1/2", "1/3", "1/4", "1"],
   [3, 2, 10, 1]⟩,
  ⟨"What does the \x27mean\x27 of a dataset represent?",
   ["The middle value", "The most frequent value", "The average of all values", "The range of values"],
   [4, 3, 10, 2]⟩,
  ⟨"An upward trend in a graph where both variables increase together is called:",
   ["Negative correlation", "Positive correlation", "No correlation", "A statistical error"],
   [1, 10, 2, 1]⟩,
  ⟨"What is the role of a server in a client-server relationship?",
   ["To request information", "To provide resources or services", "The user\x27s main computer", "To protect from viruses"],
   [3, 10, 2, 4]⟩,
  ⟨"Which of the following best describes \x27the cloud\x27?",
   ["A single, massive computer", "A network of servers accessed via internet", "A personal storage device", "Software for documents"],
   [2, 10, 1, 1]⟩,
  ⟨"What is an API (Application Programming Interface)?",
   ["A visual user interface", "A set of rules for app communication", "A database for storage", "A security protocol"],
   [3, 10, 2, 4]⟩,
  ⟨"When designing a website, what is the most important consideration?",
   ["Using many colors", "Intuitive user navigation", "Complex animations", "Smallest font size"],
   [2, 10, 1, 1]⟩,
  ⟨"What\x27s the best way to create visual hierarchy on a poster?",
   ["Make all text the same", "Make important info larger/bolder", "Put least important info at top", "Fill every empty space"],
   [1, 10, 1, 2]⟩,
  ⟨"What is the primary goal of UX (User Experience) design?",
   ["Making a product look appealing", "Focusing on branding/logo", "Enhancing usability and accessibility", "Writing the application code"],
   [4, 2, 10, 1]⟩,
  ⟨"What\x27s a constructive way to handle disagreement with a teammate?",
   ["Ignore their idea", "Publicly criticize them", "Discuss pros and cons together", "Complain to someone else"],
   [1, 1, 10, 1]⟩,
  ⟨"What is the main purpose of version control software like Git?",
   ["To write code automatically", "To track changes and manage collaboration", "To design the UI", "To store only the final version"],
   [1, 10, 1, 2]⟩,
  ⟨"When presenting to stakeholders, it\x27s most important to:",
   ["Use highly technical jargon", "Focus only on what went wrong", "Clearly communicate progress and challenges", "Make the presentation as long as possible"],
   [1, 1, 10, 1]⟩]

/-- Python list subscription `l[i]` on a list of length `n`: a nonnegative
index selects from the front, a negative index `i` selects position `n + i`,
and any index outside `[-n, n)` raises IndexError, modelled as `none`. -/
def pyIndex {α : Type} (l : List α) (i : Int) : Option α :=
  if 0 ≤ i then l.get? i.toNat
  else if (-i).toNat ≤ l.length then l.get? (l.length - (-i).toNat)
  else none

/-- One per-question record produced by the fallback scorer: the dict
`{"question": ..., "selected": ..., "score": ...}` appended to `per_q` in
`fallback_score_from_answers`. -/
structure PerQ where
  question : String
  selected : String
  score : Int
  deriving Repr, DecidableEq

/-- The loop of `fallback_score_from_answers` (`model_utils.py` lines 89-96):
python `zip` pairs questions with answers, truncating at the shorter list;
each answer subscripts the question\x27s `scores` and `options` lists with
python indexing, and an out-of-range subscript raises IndexError, modelled
as `Except.error ()`. -/
def scoreZip : List Question → List Int → Except Unit (Int × List PerQ)
  | _, [] => .ok (0, [])
  | [], _ :: _ => .ok (0, [])
  | q :: qs, a :: rest =>
    match pyIndex q.scores a, pyIndex q.options a with
    | some sc, some sel =>
      match scoreZip qs rest with
      | .ok (t, ps) => .ok (sc + t, ⟨q.question, sel, sc⟩ :: ps)
      | .error e => .error e
    | _, _ => .error ()

/-- `fallback_score_from_answers(answers)` of `model_utils.py`: returns
`(total, per_q)` on success, or an IndexError (`Except.error`) when some
answer is out of range for its question. -/
def fallback_score_from_answers (answers : List Int) : Except Unit (Int × List PerQ) :=
  scoreZip QUESTIONS answers

/-- Specification-side description of the per-question records: in question
bank order, one record per question holding the question text, the text of
the selected option, and that option\x27s point value (plain nonnegative
indexing, as the spec words assume). -/
def spec_per_question (qs : List Question) (answers : List Int) : List PerQ :=
  (qs.zip answers).map fun p => ⟨p.1.question, p.1.options.getD p.2.toNat "", p.1.scores.getD p.2.toNat 0⟩

/-- Specification-side description of the total: the exact sum over all `i`
of `scores[i][answers[i]]`. -/
def spec_total_score (qs : List Question) (answers : List Int) : Int :=
  ((qs.zip answers).map fun p => p.1.scores.getD p.2.toNat 0).sum

/-- Helper for stating concrete scoring results: the `total` component of
`fallback_score_from_answers`, or `none` when scoring raises. -/
def score_total (answers : List Int) : Option Int :=
  match fallback_score_from_answers answers with
  | .ok p => some p.1
  | .error _ => none

/-- Python `max(l)` for a list of ints: `none` models the ValueError raised
on an empty list. -/
def py_max (l : List Int) : Option Int :=
  match l with
  | [] => none
  | x :: xs => some (xs.foldl max x)

/-- The expression `q["scores"].index(max(q["scores"]))` from `submit`
(`backend/main.py` line 126): the first index of the maximum score value.
`none` models the ValueError paths (empty list, value not found). -/
def correct_index (q : Question) : Option Nat :=
  match py_max q.scores with
  | none => none
  | some m => q.scores.findIdx? (fun x => x == m)

/-- The expression `chosen == correct_indices[i]` from `submit`
(`backend/main.py` line 134): the raw chosen integer is compared with the
correct index. -/
def is_correct_flag (chosen : Int) (ci : Nat) : Bool :=
  chosen == (ci : Int)

/-- Specification-side characterisation of the correct index: the first
(lowest) index at which the maximum value of the scores sequence occurs. -/
def isFirstMaxIdx (l : List Int) (c : Nat) : Prop :=
  c < l.length ∧ (∀ j, j < l.length → l.getD j 0 ≤ l.getD c 0)
    ∧ ∀ j, j < c → l.getD j 0 < l.getD c 0

instance isFirstMaxIdxDec (l : List Int) (c : Nat) : Decidable (isFirstMaxIdx l c) :=
  inferInstanceAs (Decidable (c < l.length ∧ (∀ j, j < l.length → l.getD j 0 ≤ l.getD c 0)
    ∧ ∀ j, j < c → l.getD j 0 < l.getD c 0))

/-- A JSON/python value, as handled by `json.loads`, `json.dumps` and the
dict literals of `model_utils.py`. -/
inductive Json where
  | null
  | bool (b : Bool)
  | num (n : Int)
  | str (s : String)
  | arr (xs : List Json)
  | obj (kvs : List (String × Json))

/-- Python truthiness (`if not x`, `a or b`) on JSON-shaped values. -/
def py_truthy : Json → Bool
  | .null => false
  | .bool b => b
  | .num n => n != 0
  | .str s => !s.isEmpty
  | .arr xs => !xs.isEmpty
  | .obj kvs => !kvs.isEmpty

/-- Python `dict.get(k)`: the value stored under the first matching key, or
`None` when the key is missing. -/
def dict_get (kvs : List (String × Json)) (k : String) : Json :=
  match kvs.find? (fun p => p.1 == k) with
  | some p => p.2
  | none => .null

/-- Python `a or b` on JSON values: `a` when truthy, else `b`. -/
def py_or_json (a b : Json) : Json :=
  if py_truthy a then a else b

/-- Python truthiness of an optional string (`None` and `""` are falsy). -/
def py_truthy_str : Option String → Bool
  | none => false
  | some s => !s.isEmpty

/-- Python `a or b` on optional strings, as in
`api_key or os.getenv("GEMINI_API_KEY")`. -/
def py_or_str (a b : Option String) : Option String :=
  if py_truthy_str a then a else b

/-- The dict `{"summary": f"Gemini call failed: {str(e)}. Returning heuristic
roadmap."}` returned by the outer `except` clause of
`generate_roadmap_with_gemini` (`model_utils.py` lines 149-150). -/
def gemini_fail_msg (reason : String) : Json :=
  .obj [("summary", .str ("Gemini call failed: " ++ (reason ++ ". Returning heuristic roadmap.")))]

/-- The static heuristic plan returned by `generate_roadmap_with_gemini` when
no credential is available (`model_utils.py` lines 117-132), transcribed
verbatim. -/
def heuristic_plan : Json :=
  .obj [
    ("summary", .str "No Gemini key — heuristic plan provided."),
    ("weeks", .arr [
      .obj [("week", .num 1), ("goal", .str "Basics refresh"),
            ("activities", .arr [.str "Revise loops & functions", .str "Small coding tasks"])],
      .obj [("week", .num 2), ("goal", .str "Data structures"),
            ("activities", .arr [.str "Practice lists, dicts, comprehensions"])],
      .obj [("week", .num 3), ("goal", .str "Probability & statistics basics"),
            ("activities", .arr [.str "Mean, probability tasks"])],
      .obj [("week", .num 4), ("goal", .str "APIs & Systems"),
            ("activities", .arr [.str "Build a small API endpoint"])],
      .obj [("week", .num 5), ("goal", .str "Design & UX"),
            ("activities", .arr [.str "Design a poster, apply visual hierarchy"])],
      .obj [("week", .num 6), ("goal", .str "Collaboration & presentation"),
            ("activities", .arr [.str "Use Git, prepare a presentation"])]]),
    ("resources", .arr [
      .obj [("title", .str "LeetCode"), ("url", .str "https://leetcode.com"),
            ("why", .str "Short focused problems")],
      .obj [("title", .str "MDN Web Docs"), ("url", .str "https://developer.mozilla.org"),
            ("why", .str "Web fundamentals")]])]

/-- Outcome of the external block `requests.post(...); r.raise_for_status();
resp = r.json()`: either some exception was raised (timeout, connection
error, non-2xx status, body not JSON), carrying `str(e)`, or it produced the
decoded JSON body. -/
inductive ServiceOutcome where
  | failure (reason : String)
  | success (resp : Json)

/-- External collaborators of `generate_roadmap_with_gemini` that the
program does not define: the process environment (`os.getenv`) and the
python standard-library functions `json.loads` (`none` models a parse
error), `json.dumps`, and the rendering `str(e)` of the AttributeError
raised by `resp.get` when `r.json()` is not a dict. -/
structure Ext where
  env_key : Option String
  json_loads : String → Option Json
  json_dumps : Json → String
  attr_err : Json → String

/-- Result of one `generate_roadmap_with_gemini` call: the returned value
and whether the outbound `requests.post` was executed. -/
structure GenResult where
  roadmap : Json
  network_called : Bool

/-- The expression `resp.get("output_text") or resp.get("result") or
json.dumps(resp)` (`model_utils.py` line 144). -/
def extract_text (json_dumps : Json → String) (kvs : List (String × Json)) : Json :=
  py_or_json (dict_get kvs "output_text")
    (py_or_json (dict_get kvs "result") (.str (json_dumps (.obj kvs))))

/-- The inner `try: return json.loads(text) except Exception: return
{"summary": text}` (`model_utils.py` lines 145-148). A non-string `text`
makes `json.loads` raise TypeError, also caught here. -/
def parse_or_wrap (json_loads : String → Option Json) (text : Json) : Json :=
  match text with
  | .str s =>
    match json_loads s with
    | some j => j
    | none => .obj [("summary", .str s)]
  | t => .obj [("summary", t)]

/-- Model of `generate_roadmap_with_gemini` (`model_utils.py` lines 98-150).
The strengths/weaknesses partition and the prompt built from them influence
only the request payload sent to the generation service, whose behaviour is
abstracted by the `svc` oracle; the `user_name`, `total_score`,
`per_question` and `prediction` arguments therefore do not affect the
returned value. The no-credential branch returns the static plan without
executing `requests.post`; with a credential, a raised exception yields the
failure summary, a dict response goes through text extraction and JSON
parsing, and a non-dict response makes `resp.get` raise AttributeError,
caught by the same outer `except`. -/
def generate_roadmap_with_gemini (ext : Ext) (svc : ServiceOutcome) (api_key : Option String)
    (user_name : String) (total_score : Int) (per_question : List PerQ)
    (prediction : Option String) : GenResult :=
  let gemini_api_key := py_or_str api_key ext.env_key
  if !py_truthy_str gemini_api_key then
    ⟨heuristic_plan, false⟩
  else
    match svc with
    | .failure reason => ⟨gemini_fail_msg reason, true⟩
    | .success resp =>
      match resp with
      | .obj kvs => ⟨parse_or_wrap ext.json_loads (extract_text ext.json_dumps kvs), true⟩
      | other => ⟨gemini_fail_msg (ext.attr_err other), true⟩

/-- The two classifier backends of `load_xgb_model`: a pickled sklearn-style
estimator, or a native xgboost booster. -/
inductive ModelType where
  | sklearn
  | booster
  deriving DecidableEq, Repr

/-- Model of `load_xgb_model` (`model_utils.py` lines 61-81). The filesystem
and the two loaders are external: `path_exists` and `alt_exists` are the
`os.path.exists` probes of the configured path and of the `XGB_MODEL_PATH`
alternative, `joblib_result` is the outcome of `joblib.load` (`none` models
a raised exception), `xgb_available` says whether `import xgboost`
succeeded, and `booster_result` is the outcome of `xgb.Booster.load_model`.
Returns the loaded handle and its backend tag, or `none` (python
`(None, None)`). -/
def load_xgb_model {α : Type} (path_exists : Bool) (alt_exists : Bool)
    (joblib_result : Option α) (xgb_available : Bool) (booster_result : Option α) :
    Option (α × ModelType) :=
  if !path_exists && !alt_exists then none
  else
    match joblib_result with
    | some m => some (m, .sklearn)
    | none =>
      if xgb_available then
        match booster_result with
        | some b => some (b, .booster)
        | none => none
      else none

/-- Model of `features_from_answers` (`model_utils.py` lines 83-87): raises
ValueError on a length mismatch, else returns the single-row matrix
`np.array([answers])` (the float32 cast is exact on these small ints and is
not modelled). -/
def features_from_answers (answers : List Int) : Except String (List (List Int)) :=
  if answers.length ≠ QUESTIONS.length then
    .error ("Expected " ++ toString QUESTIONS.length ++ " answers, got " ++ toString answers.length)
  else .ok [answers]

/-- The classifier block of `submit` (`backend/main.py` lines 97-119): if a
model is loaded, build features and predict inside `try: ... except
Exception: pass`-style handling, so any exception (modelled by the
`predict_outcome` oracle, which covers both backends and the `str(...)`
rendering of their outputs) leaves the prediction absent. -/
def classifier_step {α : Type} (model : Option (α × ModelType)) (answers : List Int)
    (predict_outcome : Except Unit String) : Option String :=
  match model with
  | none => none
  | some _ =>
    match features_from_answers answers with
    | .error _ => none
    | .ok _ =>
      match predict_outcome with
      | .error _ => none
      | .ok label => some label

/-- One entry of the `per_question_feedback` list built by `submit`
(`backend/main.py` lines 127-138). -/
structure FeedbackEntry where
  question : String
  chosen_index : Int
  chosen_text : String
  is_correct : Bool
  correct_index : Nat
  correct_text : String
  score_for_choice : Int
  deriving Repr, DecidableEq

/-- The feedback loop of `submit` (`backend/main.py` lines 125-138):
`correct_indices` is computed for every question first, then one entry per
question pairs the chosen answer with it. `none` models an uncaught
exception (impossible on this question bank, where every scores list is
nonempty and chosen indices were already validated by the scorer). -/
def build_feedback (answers : List Int) : Option (List FeedbackEntry) := do
  let cis ← QUESTIONS.mapM correct_index
  (List.range QUESTIONS.length).mapM fun i => do
    let q := QUESTIONS.getD i ⟨"", [], []⟩
    let ci := cis.getD i 0
    let chosen := answers.getD i 0
    let chosen_text ← pyIndex q.options chosen
    let correct_text ← q.options.get? ci
    let sc ← pyIndex q.scores chosen
    pure ⟨q.question, chosen, chosen_text, is_correct_flag chosen ci, ci, correct_text, sc⟩

/-- Errors with which a `submit` request can abort: the explicit 400 on an
answers-count mismatch (`main.py` lines 94-95), an uncaught IndexError from
the fallback scorer, or an uncaught error while building feedback. -/
inductive SubmitError where
  | inputLengthMismatch
  | indexOutOfRange
  | internalError
  deriving DecidableEq, Repr

/-- The response body of `submit`: total score, roadmap, per-question
feedback; `prediction` is the classifier label stored in the Result row. -/
structure SubmitOut where
  total_score : Int
  roadmap : Json
  per_question : List FeedbackEntry
  prediction : Option String

/-- Model of the `/api/submit` handler (`backend/main.py` lines 92-144),
persistence omitted: validate the answers count, run the classifier step
(never fatal), always compute the fallback score, generate the roadmap, and
build per-question feedback. -/
def submit {α : Type} (ext : Ext) (svc : ServiceOutcome) (model : Option (α × ModelType))
    (predict_outcome : Except Unit String) (gemini_key : Option String)
    (user_name : String) (answers : List Int) : Except SubmitError SubmitOut :=
  if answers.length ≠ QUESTIONS.length then .error .inputLengthMismatch
  else
    let prediction := classifier_step model answers predict_outcome
    match fallback_score_from_answers answers with
    | .error _ => .error .indexOutOfRange
    | .ok (total, per_q) =>
      let gen := generate_roadmap_with_gemini ext svc gemini_key user_name total per_q prediction
      match build_feedback answers with
      | none => .error .internalError
      | some fb => .ok ⟨total, gen.roadmap, fb, prediction⟩

/-- Number of elements of the array stored under key `k` of a JSON object
(0 when absent or not an array). -/
def arr_count (j : Json) (k : String) : Nat :=
  match j with
  | .obj kvs =>
    match dict_get kvs k with
    | .arr xs => xs.length
    | _ => 0
  | _ => 0

/-- Whether a JSON object carries key `k`. -/
def has_key (j : Json) (k : String) : Bool :=
  match j with
  | .obj kvs => kvs.any (fun p => p.1 == k)
  | _ => false

theorem get?_isSome_iff {α : Type} (l : List α) (n : Nat) :
    (l.get? n).isSome = true ↔ n < l.length := by
  rw [List.get?_eq_getElem?]
  constructor
  · intro h
    by_contra hlt
    rw [List.getElem?_eq_none (by omega)] at h
    simp at h
  · intro h
    rw [List.getElem?_eq_getElem h]
    rfl

theorem pyIndex_isSome_iff {α : Type} (l : List α) (i : Int) :
    (pyIndex l i).isSome = true ↔ -(l.length : Int) ≤ i ∧ i < (l.length : Int) := by
  unfold pyIndex
  split
  · next h0 =>
    rw [get?_isSome_iff]
    omega
  · next h0 =>
    split
    · next hk =>
      rw [get?_isSome_iff]
      omega
    · next hk =>
      constructor
      · intro h
        simp at h
      · intro h
        exfalso
        omega

theorem pyIndex_eq_some_getD {α : Type} (l : List α) (i : Int) (d : α)
    (h0 : 0 ≤ i) (hlt : i.toNat < l.length) :
    pyIndex l i = some (l.getD i.toNat d) := by
  unfold pyIndex
  rw [if_pos h0, List.get?_eq_getElem?, List.getElem?_eq_getElem hlt,
    List.getD_eq_getElem?_getD, List.getElem?_eq_getElem hlt]
  rfl

theorem questions_scores_options_length :
    ∀ q ∈ QUESTIONS, q.scores.length = q.options.length := by decide

theorem scoreZip_spec (qs : List Question) (answers : List Int)
    (h : ∀ p ∈ qs.zip answers,
      0 ≤ p.2 ∧ p.2.toNat < p.1.scores.length ∧ p.2.toNat < p.1.options.length) :
    scoreZip qs answers = .ok (spec_total_score qs answers, spec_per_question qs answers) := by
  induction qs generalizing answers with
  | nil =>
    cases answers <;> simp [scoreZip, spec_total_score, spec_per_question]
  | cons q qs ih =>
    cases answers with
    | nil => simp [scoreZip, spec_total_score, spec_per_question]
    | cons a rest =>
      obtain ⟨h0, hs, ho⟩ := h (q, a) (by simp)
      have hrest : ∀ p ∈ qs.zip rest,
          0 ≤ p.2 ∧ p.2.toNat < p.1.scores.length ∧ p.2.toNat < p.1.options.length :=
        fun p hp => h p (by simp [hp])
      have hps : pyIndex q.scores a = some (q.scores.getD a.toNat 0) :=
        pyIndex_eq_some_getD _ _ _ h0 hs
      have hpo : pyIndex q.options a = some (q.options.getD a.toNat "") :=
        pyIndex_eq_some_getD _ _ _ h0 ho
      simp [scoreZip, hps, hpo, ih rest hrest, spec_total_score, spec_per_question]

theorem scoreZip_isOk_iff (qs : List Question) (answers : List Int) :
    (scoreZip qs answers).isOk = true ↔
      ∀ p ∈ qs.zip answers,
        (pyIndex p.1.scores p.2).isSome = true ∧ (pyIndex p.1.options p.2).isSome = true := by
  induction qs generalizing answers with
  | nil => cases answers <;> simp [scoreZip, Except.isOk, Except.toBool]
  | cons q qs ih =>
    cases answers with
    | nil => simp [scoreZip, Except.isOk, Except.toBool]
    | cons a rest =>
      rw [show (q :: qs).zip (a :: rest) = (q, a) :: qs.zip rest from rfl]
      simp only [List.mem_cons, forall_eq_or_imp]
      rw [← ih rest]
      cases hps : pyIndex q.scores a with
      | none => simp [scoreZip, hps, Except.isOk, Except.toBool]
      | some sc =>
        cases hpo : pyIndex q.options a with
        | none => simp [scoreZip, hps, hpo, Except.isOk, Except.toBool]
        | some sel =>
          cases hrec : scoreZip qs rest with
          | error e => simp [scoreZip, hps, hpo, hrec, Except.isOk, Except.toBool]
          | ok t => simp [scoreZip, hps, hpo, hrec, Except.isOk, Except.toBool]

/-- C1: for every answer vector of the right length whose every element is a
valid option index, the fallback scorer returns exactly the sum of
`scores[i][answers[i]]` as the total, and one record per question, in
question-bank order, holding the question text, the selected option text,
and that option\x27s point value. -/
theorem fallback_score_correct (answers : List Int)
    (hlen : answers.length = QUESTIONS.length)
    (hvalid : ∀ p ∈ QUESTIONS.zip answers, 0 ≤ p.2 ∧ p.2.toNat < p.1.options.length) :
    fallback_score_from_answers answers =
      .ok (spec_total_score QUESTIONS answers, spec_per_question QUESTIONS answers) := by
  apply scoreZip_spec
  intro p hp
  obtain ⟨h0, ho⟩ := hvalid p hp
  have hq : p.1.scores.length = p.1.options.length :=
    questions_scores_options_length p.1 (List.of_mem_zip hp).1
  exact ⟨h0, by omega, ho⟩

/-- Witness for `fallback_score_correct`: the all-zeros answer vector is
valid and scores to the spec-side values. -/
theorem fallback_score_correct_witness :
    ((List.replicate 15 (0 : Int)).length = QUESTIONS.length
      ∧ ∀ p ∈ QUESTIONS.zip (List.replicate 15 (0 : Int)),
          0 ≤ p.2 ∧ p.2.toNat < p.1.options.length)
    ∧ fallback_score_from_answers (List.replicate 15 (0 : Int)) =
        .ok (spec_total_score QUESTIONS (List.replicate 15 (0 : Int)),
          spec_per_question QUESTIONS (List.replicate 15 (0 : Int))) :=
  ⟨⟨by decide, by decide⟩, fallback_score_correct _ (by decide) (by decide)⟩

/-- C2 counterexample: the answer `-1` for question 0 lies outside
`[0, 4)`, yet the scorer succeeds rather than failing — python negative
indexing selects the last option. -/
theorem neg_index_scores_ok :
    ¬(0 ≤ (-1 : Int)) ∧
    (fallback_score_from_answers [-1, 0, 0, 0, 0, 0, 0, 0, 0, 0, 0, 0, 0, 0, 0]).isOk = true := by
  constructor
  · decide
  · rfl

/-- C2 amended: the scorer fails with IndexOutOfRange iff some zipped answer
lies outside the python index range `[-len(options_i), len(options_i))`;
negative indices inside that range select from the end and succeed. -/
theorem score_error_iff (answers : List Int) :
    (fallback_score_from_answers answers).isOk = false ↔
      ∃ p ∈ QUESTIONS.zip answers,
        p.2 < -(p.1.options.length : Int) ∨ (p.1.options.length : Int) ≤ p.2 := by
  have hpt : ∀ p ∈ QUESTIONS.zip answers,
      ((pyIndex p.1.scores p.2).isSome = true ∧ (pyIndex p.1.options p.2).isSome = true ↔
        ¬(p.2 < -(p.1.options.length : Int) ∨ (p.1.options.length : Int) ≤ p.2)) := by
    intro p hp
    have hq : p.1.scores.length = p.1.options.length :=
      questions_scores_options_length p.1 (List.of_mem_zip hp).1
    rw [pyIndex_isSome_iff, pyIndex_isSome_iff, hq]
    omega
  constructor
  · intro hfalse
    by_contra hne
    push_neg at hne
    have hok : (scoreZip QUESTIONS answers).isOk = true :=
      (scoreZip_isOk_iff _ _).2 (fun p hp => (hpt p hp).2 (by
        have hb := hne p hp
        omega))
    rw [show fallback_score_from_answers answers = scoreZip QUESTIONS answers from rfl, hok]
      at hfalse
    cases hfalse
  · rintro ⟨p, hp, hout⟩
    rw [show fallback_score_from_answers answers = scoreZip QUESTIONS answers from rfl]
    rw [← Bool.not_eq_true, scoreZip_isOk_iff]
    intro hall
    exact (hpt p hp).1 (hall p hp) hout

/-- C7: for every question of the bank, the index used for feedback is the
first (lowest) index at which the maximum of the scores sequence occurs, and
a choice is marked correct iff it equals that index. -/
theorem correct_index_first_max :
    (∀ q ∈ QUESTIONS, ∃ c, correct_index q = some c ∧ isFirstMaxIdx q.scores c)
    ∧ ∀ (chosen : Int) (ci : Nat), is_correct_flag chosen ci = true ↔ chosen = (ci : Int) := by
  constructor
  · intro q hq
    fin_cases hq <;> exact ⟨_, rfl, by decide⟩
  · intro chosen ci
    simp [is_correct_flag]

/-- Witness for `correct_index_first_max`: question 0 of the bank has
first-max index 2, and the flag at that index is correct. -/
theorem correct_index_first_max_witness :
    ((QUESTIONS.getD 0 ⟨"", [], []⟩) ∈ QUESTIONS
      ∧ ∃ c, correct_index (QUESTIONS.getD 0 ⟨"", [], []⟩) = some c
          ∧ isFirstMaxIdx (QUESTIONS.getD 0 ⟨"", [], []⟩).scores c)
    ∧ (is_correct_flag 2 2 = true ↔ (2 : Int) = (2 : Nat)) :=
  ⟨⟨by decide, correct_index_first_max.1 _ (by decide)⟩, correct_index_first_max.2 2 2⟩

/-- C9: on the concrete 15-question bank, the all-best answer vector scores
150 and matches the correct index everywhere, and the all-zeros vector
scores 32. -/
theorem end_to_end_examples :
    score_total [2, 1, 2, 2, 2, 1, 1, 1, 1, 1, 1, 2, 2, 1, 2] = some 150
    ∧ (∀ p ∈ QUESTIONS.zip ([2, 1, 2, 2, 2, 1, 1, 1, 1, 1, 1, 2, 2, 1, 2] : List Int),
        correct_index p.1 = some p.2.toNat)
    ∧ score_total (List.replicate 15 0) = some 32 := by
  refine ⟨by decide, by decide, by decide⟩

/-- C4: with no per-request key and no process-wide key, the roadmap
generator returns the identical static heuristic plan for every input,
makes no network call, and that plan has exactly 6 weeks and 2 resources. -/
theorem no_key_static_plan (ext : Ext) (svc : ServiceOutcome) (user_name : String)
    (total_score : Int) (per_question : List PerQ) (prediction : Option String)
    (henv : ext.env_key = none) :
    generate_roadmap_with_gemini ext svc none user_name total_score per_question prediction
        = ⟨heuristic_plan, false⟩
    ∧ arr_count heuristic_plan "weeks" = 6
    ∧ arr_count heuristic_plan "resources" = 2 := by
  obtain ⟨env, jl, jd, ae⟩ := ext
  cases henv
  exact ⟨rfl, rfl, rfl⟩

/-- Witness for `no_key_static_plan` at concrete arguments. -/
theorem no_key_static_plan_witness :
    (Ext.mk none (fun _ => none) (fun _ => "") (fun _ => "")).env_key = none
    ∧ generate_roadmap_with_gemini (Ext.mk none (fun _ => none) (fun _ => "") (fun _ => ""))
        (.failure "down") none "u" 0 [] none = ⟨heuristic_plan, false⟩
    ∧ arr_count heuristic_plan "weeks" = 6
    ∧ arr_count heuristic_plan "resources" = 2 :=
  ⟨rfl, no_key_static_plan _ (.failure "down") "u" 0 [] none rfl⟩

/-- C10 (implicit): an empty-string per-request key is treated exactly like
an absent key — with no process-wide key the static plan is returned and no
network call is made, identically to the no-credential case. -/
theorem empty_key_static_plan (ext : Ext) (svc : ServiceOutcome) (user_name : String)
    (total_score : Int) (per_question : List PerQ) (prediction : Option String)
    (henv : ext.env_key = none) :
    generate_roadmap_with_gemini ext svc (some "") user_name total_score per_question prediction
        = generate_roadmap_with_gemini ext svc none user_name total_score per_question prediction
    ∧ generate_roadmap_with_gemini ext svc (some "") user_name total_score per_question prediction
        = ⟨heuristic_plan, false⟩ := by
  obtain ⟨env, jl, jd, ae⟩ := ext
  cases henv
  exact ⟨rfl, rfl⟩

/-- Witness for `empty_key_static_plan` at concrete arguments. -/
theorem empty_key_static_plan_witness :
    (Ext.mk none (fun _ => none) (fun _ => "") (fun _ => "")).env_key = none
    ∧ generate_roadmap_with_gemini (Ext.mk none (fun _ => none) (fun _ => "") (fun _ => ""))
        (.failure "down") (some "") "u" 0 [] none
      = generate_roadmap_with_gemini (Ext.mk none (fun _ => none) (fun _ => "") (fun _ => ""))
          (.failure "down") none "u" 0 [] none :=
  ⟨rfl, (empty_key_static_plan _ (.failure "down") "u" 0 [] none rfl).1⟩

/-- C5: with a credential available and the service call failing, the
generator returns only a summary carrying the failure text; the result has
no weeks, no resources, and is not the static heuristic plan. -/
theorem service_failure_summary_only (ext : Ext) (api_key : Option String) (reason : String)
    (user_name : String) (total_score : Int) (per_question : List PerQ)
    (prediction : Option String)
    (hkey : py_truthy_str (py_or_str api_key ext.env_key) = true) :
    generate_roadmap_with_gemini ext (.failure reason) api_key user_name total_score
        per_question prediction = ⟨gemini_fail_msg reason, true⟩
    ∧ (∃ rest, gemini_fail_msg reason = .obj [("summary", .str ("Gemini call failed: " ++ rest))])
    ∧ has_key (gemini_fail_msg reason) "weeks" = false
    ∧ has_key (gemini_fail_msg reason) "resources" = false
    ∧ gemini_fail_msg reason ≠ heuristic_plan := by
  refine ⟨?_, ⟨reason ++ ". Returning heuristic roadmap.", rfl⟩, rfl, rfl, ?_⟩
  · simp [generate_roadmap_with_gemini, hkey]
  · intro h
    have h2 := congrArg (fun j => has_key j "weeks") h
    simp [gemini_fail_msg, heuristic_plan, has_key] at h2

/-- Witness for `service_failure_summary_only` at concrete arguments. -/
theorem service_failure_summary_only_witness :
    py_truthy_str (py_or_str (some "k")
        (Ext.mk none (fun _ => none) (fun _ => "") (fun _ => "")).env_key) = true
    ∧ generate_roadmap_with_gemini (Ext.mk none (fun _ => none) (fun _ => "") (fun _ => ""))
        (.failure "timeout") (some "k") "u" 0 [] none = ⟨gemini_fail_msg "timeout", true⟩ :=
  ⟨by decide,
    (service_failure_summary_only (Ext.mk none (fun _ => none) (fun _ => "") (fun _ => ""))
      (some "k") "timeout" "u" 0 [] none (by decide)).1⟩

/-- C8: with a credential available and a successful service response, the
textual output is parsed as JSON; a successful parse is returned verbatim,
and a failed parse yields `{summary: raw text}` with no weeks and no
resources. -/
theorem service_success_parse (ext : Ext) (api_key : Option String)
    (kvs : List (String × Json)) (user_name : String) (total_score : Int)
    (per_question : List PerQ) (prediction : Option String)
    (hkey : py_truthy_str (py_or_str api_key ext.env_key) = true) :
    (generate_roadmap_with_gemini ext (.success (.obj kvs)) api_key user_name total_score
        per_question prediction).network_called = true
    ∧ (∀ s j, extract_text ext.json_dumps kvs = .str s → ext.json_loads s = some j →
        (generate_roadmap_with_gemini ext (.success (.obj kvs)) api_key user_name total_score
          per_question prediction).roadmap = j)
    ∧ ∀ s, extract_text ext.json_dumps kvs = .str s → ext.json_loads s = none →
        (generate_roadmap_with_gemini ext (.success (.obj kvs)) api_key user_name total_score
            per_question prediction).roadmap = .obj [("summary", .str s)]
          ∧ has_key (generate_roadmap_with_gemini ext (.success (.obj kvs)) api_key user_name
              total_score per_question prediction).roadmap "weeks" = false
          ∧ has_key (generate_roadmap_with_gemini ext (.success (.obj kvs)) api_key user_name
              total_score per_question prediction).roadmap "resources" = false := by
  refine ⟨?_, ?_, ?_⟩
  · simp [generate_roadmap_with_gemini, hkey]
  · intro s j hs hj
    simp [generate_roadmap_with_gemini, hkey, hs, parse_or_wrap, hj]
  · intro s hs hj
    simp [generate_roadmap_with_gemini, hkey, hs, parse_or_wrap, hj, has_key]

/-- Witness for `service_success_parse` at concrete arguments: the service
returns `{"output_text": "[1]"}` and parsing yields the array `[1]`. -/
theorem service_success_parse_witness :
    py_truthy_str (py_or_str (some "k")
        (Ext.mk none (fun _ => some (.arr [.num 1])) (fun _ => "") (fun _ => "")).env_key) = true
    ∧ (generate_roadmap_with_gemini
        (Ext.mk none (fun _ => some (.arr [.num 1])) (fun _ => "") (fun _ => ""))
        (.success (.obj [("output_text", .str "[1]")])) (some "k") "u" 0 [] none).network_called
      = true :=
  ⟨by decide,
    (service_success_parse (Ext.mk none (fun _ => some (.arr [.num 1])) (fun _ => "") (fun _ => ""))
      (some "k") [("output_text", .str "[1]")] "u" 0 [] none (by decide)).1⟩

/-- C3: the submit pipeline fails with InputLengthMismatch exactly when the
answers count differs from the question count; it never truncates or pads. -/
theorem submit_length_check {α : Type} (ext : Ext) (svc : ServiceOutcome)
    (model : Option (α × ModelType)) (predict_outcome : Except Unit String)
    (gemini_key : Option String) (user_name : String) (answers : List Int) :
    submit ext svc model predict_outcome gemini_key user_name answers
        = .error .inputLengthMismatch
      ↔ answers.length ≠ QUESTIONS.length := by
  constructor
  · intro h
    by_contra hlen
    unfold submit at h
    rw [if_neg (fun hne => hne hlen)] at h
    cases hsc : fallback_score_from_answers answers with
    | error e => rw [hsc] at h; simp at h
    | ok p =>
      rw [hsc] at h
      cases hfb : build_feedback answers with
      | none => rw [hfb] at h; simp at h
      | some fb => rw [hfb] at h; simp at h
  · intro h
    unfold submit
    rw [if_pos h]

/-- C6: the classifier step never aborts the submission: an absent or
corrupted model artifact loads as `none`, any exception during prediction
yields an absent prediction, and for every model state the total score and
per-question feedback of the submit response equal those computed with no
classifier at all. -/
theorem classifier_never_alters_score {α : Type} (ext : Ext) (svc : ServiceOutcome)
    (answers : List Int) (predict_outcome : Except Unit String)
    (gemini_key : Option String) (user_name : String) :
    (classifier_step (none : Option (α × ModelType)) answers predict_outcome = none)
    ∧ (∀ (m : α) (mt : ModelType), classifier_step (some (m, mt)) answers (.error ()) = none)
    ∧ (∀ (pe ae xa : Bool), load_xgb_model pe ae (none : Option α) xa none = none)
    ∧ (∀ (jr : Option α) (xa : Bool) (br : Option α), load_xgb_model false false jr xa br = none)
    ∧ ∀ (model : Option (α × ModelType)),
        (submit ext svc model predict_outcome gemini_key user_name answers).map
            (fun r => (r.total_score, r.per_question)) =
          (submit ext svc (none : Option (α × ModelType)) predict_outcome gemini_key user_name
              answers).map (fun r => (r.total_score, r.per_question)) := by
  refine ⟨rfl, ?_, ?_, fun _ _ _ => rfl, ?_⟩
  · intro m mt
    cases hf : features_from_answers answers <;> simp [classifier_step, hf]
  · intro pe ae xa
    cases pe <;> cases ae <;> cases xa <;> rfl
  · intro model
    unfold submit
    by_cases hlen : answers.length ≠ QUESTIONS.length
    · rw [if_pos hlen, if_pos hlen]
    · rw [if_neg hlen, if_neg hlen]
      cases hsc : fallback_score_from_answers answers with
      | error e => rfl
      | ok p =>
        cases hfb : build_feedback answers with
        | none => rfl
        | some fb => rfl

end ELearn
